import Mathlib

/-!
# gdipwebc: a GnuDIP (dynamic DNS) web client

Shallow embedding of `gdip/client.go` (package `gdip`) and of the option
handling of `main.go` (package `main`), followed by the properties of the
update protocol established on that embedding.

Modelling conventions

* Go strings are Lean strings; `+` is `++`, `fmt.Sprintf("k=%s", v)` is
  `"k=" ++ v`, and `%d` of an `int` is `toString` on `Int`.
* `type RequestCode int` is `Int` with the three `iota` constants.
* A Go `error` value is a `GoError`; a nil error is `none`.
* `http.Client.Get` followed by `xml.Decoder.Decode` is one call of a
  `Transport`: it receives the URLs already requested and the URL requested
  now, and answers either with an error or with the decoded `response`.
  Every function that performs a GET threads the list of requested URLs.
* Dereferencing a nil pointer stops the program: `Run.panic`.
* Logging (`logdebug`, `loginfo`, `logerr`) only writes to the log sink and
  is left out.
-/

set_option autoImplicit false

namespace gdip

/-! ## Data model -/

/-- RequestCode represents registration mode (`type RequestCode int`). -/
abbrev RequestCode := Int

/-- Active register mode.  IP address must be specified. -/
abbrev REGISTER : RequestCode := 0

/-- Go-offline mode. -/
abbrev OFFLINE : RequestCode := 1

/-- Passive mode.  The address seen by the server will be registered. -/
abbrev REGISTER_PASSIVE : RequestCode := 2

/-- Go `error` values: the ones this program creates with `fmt.Errorf`, and the
ones handed back by `http.Client.Get` or `xml.Decoder.Decode`. -/
inductive GoError where
  | errorf (msg : String)
  | external (cause : String)
  deriving DecidableEq, Repr

/-- Result of running code that may stop with a run-time panic instead of
returning. -/
inductive Run (α : Type) where
  | panic : Run α
  | ret : α → Run α
  deriving DecidableEq, Repr

/-- Client represents GnuDIP client.  The `http` field is the `Transport`
argument of the functions below. -/
structure Client where
  URL : String
  User : String
  Password : String
  DomainName : String
  requestCode : RequestCode
  Address : String
  deriving DecidableEq, Repr

/-- One `meta` element: its `name` and `content` attributes. -/
structure meta where
  Name : String
  Content : String
  deriving DecidableEq, Repr

/-- Decoded document: the `meta` elements under `html>head`, in document
order. -/
structure response where
  Meta : List meta
  deriving DecidableEq, Repr

/-- The HTTP client together with the XML decoder: given the URLs requested so
far (oldest first) and the URL requested now, the error of the exchange or the
decoded document. -/
abbrev Transport := List String → String → Except GoError response

/-! ## MD5 (`crypto/md5`, RFC 1321) on 32-bit words held in `Nat` -/

/-- Bytes of a string (UTF-8), each as a number below 256. -/
def bytes (s : String) : List Nat :=
  (s.data.flatMap String.utf8EncodeChar).map UInt8.toNat

/-- Per-step left-rotation amounts. -/
def md5Shift : List Nat :=
  [7, 12, 17, 22, 7, 12, 17, 22, 7, 12, 17, 22, 7, 12, 17, 22,
   5, 9, 14, 20, 5, 9, 14, 20, 5, 9, 14, 20, 5, 9, 14, 20,
   4, 11, 16, 23, 4, 11, 16, 23, 4, 11, 16, 23, 4, 11, 16, 23,
   6, 10, 15, 21, 6, 10, 15, 21, 6, 10, 15, 21, 6, 10, 15, 21]

/-- Per-step additive constants. -/
def md5K : List Nat :=
  [0xd76aa478, 0xe8c7b756, 0x242070db, 0xc1bdceee,
   0xf57c0faf, 0x4787c62a, 0xa8304613, 0xfd469501,
   0x698098d8, 0x8b44f7af, 0xffff5bb1, 0x895cd7be,
   0x6b901122, 0xfd987193, 0xa679438e, 0x49b40821,
   0xf61e2562, 0xc040b340, 0x265e5a51, 0xe9b6c7aa,
   0xd62f105d, 0x02441453, 0xd8a1e681, 0xe7d3fbc8,
   0x21e1cde6, 0xc33707d6, 0xf4d50d87, 0x455a14ed,
   0xa9e3e905, 0xfcefa3f8, 0x676f02d9, 0x8d2a4c8a,
   0xfffa3942, 0x8771f681, 0x6d9d6122, 0xfde5380c,
   0xa4beea44, 0x4bdecfa9, 0xf6bb4b60, 0xbebfbc70,
   0x289b7ec6, 0xeaa127fa, 0xd4ef3085, 0x04881d05,
   0xd9d4d039, 0xe6db99e5, 0x1fa27cf8, 0xc4ac5665,
   0xf4292244, 0x432aff97, 0xab9423a7, 0xfc93a039,
   0x655b59c3, 0x8f0ccc92, 0xffeff47d, 0x85845dd1,
   0x6fa87e4f, 0xfe2ce6e0, 0xa3014314, 0x4e0811a1,
   0xf7537e82, 0xbd3af235, 0x2ad7d2bb, 0xeb86d391]

/-- Rotate a 32-bit word left by `c` bits. -/
def rotl32 (x c : Nat) : Nat :=
  ((x <<< c) % 2 ^ 32) ||| (x >>> (32 - c))

/-- Bitwise complement of a 32-bit word. -/
def not32 (x : Nat) : Nat := x ^^^ 0xffffffff

/-- Step `i` (0 to 63) of the compression function on the message words
`w`. -/
def md5Step (w : List Nat) (st : Nat × Nat × Nat × Nat) (i : Nat) :
    Nat × Nat × Nat × Nat :=
  let a := st.1
  let b := st.2.1
  let c := st.2.2.1
  let d := st.2.2.2
  let f :=
    if i < 16 then (b &&& c) ||| (not32 b &&& d)
    else if i < 32 then (d &&& b) ||| (not32 d &&& c)
    else if i < 48 then b ^^^ c ^^^ d
    else c ^^^ (b ||| not32 d)
  let g :=
    if i < 16 then i
    else if i < 32 then (5 * i + 1) % 16
    else if i < 48 then (3 * i + 5) % 16
    else (7 * i) % 16
  let x := (a + f + md5K.getD i 0 + w.getD g 0) % 2 ^ 32
  (d, (b + rotl32 x (md5Shift.getD i 0)) % 2 ^ 32, b, c)

/-- Little-endian 32-bit word at the head of a byte list. -/
def le32 : List Nat → Nat
  | b0 :: b1 :: b2 :: b3 :: _ => b0 + 256 * b1 + 65536 * b2 + 16777216 * b3
  | _ => 0

/-- The first `n` little-endian words of a byte list. -/
def words : Nat → List Nat → List Nat
  | 0, _ => []
  | n + 1, bs => le32 bs :: words n (bs.drop 4)

/-- Compression of one 64-byte block. -/
def md5Block (st : Nat × Nat × Nat × Nat) (block : List Nat) : Nat × Nat × Nat × Nat :=
  let r := (List.range 64).foldl (md5Step (words 16 block)) st
  ((st.1 + r.1) % 2 ^ 32, (st.2.1 + r.2.1) % 2 ^ 32,
   (st.2.2.1 + r.2.2.1) % 2 ^ 32, (st.2.2.2 + r.2.2.2) % 2 ^ 32)

/-- Compression of the first `n` blocks of a byte list. -/
def md5Blocks : Nat → Nat × Nat × Nat × Nat → List Nat → Nat × Nat × Nat × Nat
  | 0, st, _ => st
  | n + 1, st, bs => md5Blocks n (md5Block st (bs.take 64)) (bs.drop 64)

/-- The `n` low bytes of `x`, least significant first. -/
def leBytes : Nat → Nat → List Nat
  | 0, _ => []
  | n + 1, x => x % 256 :: leBytes n (x / 256)

/-- Message padding: a `0x80` byte, zero bytes up to 56 modulo 64, and the
length in bits as 8 little-endian bytes. -/
def md5Pad (msg : List Nat) : List Nat :=
  msg ++ 0x80 :: List.replicate ((119 - msg.length % 64) % 64) 0
    ++ leBytes 8 ((8 * msg.length) % 2 ^ 64)

/-- The 16-byte digest `md5.Sum`. -/
def md5Sum (msg : List Nat) : List Nat :=
  let p := md5Pad msg
  let r := md5Blocks (p.length / 64) (0x67452301, 0xefcdab89, 0x98badcfe, 0x10325476) p
  leBytes 4 r.1 ++ leBytes 4 r.2.1 ++ leBytes 4 r.2.2.1 ++ leBytes 4 r.2.2.2

/-- Lower-case hexadecimal digit. -/
def hexDigit (n : Nat) : Char := "0123456789abcdef".data.getD n '0'

/-- The string `fmt.Sprintf("%02x", b)` of a byte `b`. -/
def sprintf02x (b : Nat) : String := String.mk [hexDigit (b / 16), hexDigit (b % 16)]

/-- The function `md5_hex`: the digest bytes, each appended as two hex digits. -/
def md5_hex (s : String) : String :=
  (md5Sum (bytes s)).foldl (fun xs b => xs ++ sprintf02x b) ""

/-! ## The client -/

/-- New returns new Client.  If reqCode is REGISTER, addr must be specified. -/
def New (url user passwd domain : String) (reqCode : RequestCode) (addr : String) :
    Except GoError Client :=
  if url = "" then
    .error (.errorf "URL ot the service must be specified")
  else if user = "" then
    .error (.errorf "User name must be specified")
  else if passwd = "" then
    .error (.errorf "Password must be specified")
  else if reqCode = REGISTER ∧ addr = "" then
    .error (.errorf "IP Address must be specified when reqCode is REGISTER")
  else
    .ok ⟨url, user, md5_hex passwd, domain, reqCode, addr⟩

/-- The method `Client.get`: one GET of the service URL, with `?params`
appended when `params` is not empty; the requested URL is recorded. -/
def get (http : Transport) (c : Client) (params : String) (hist : List String) :
    Except GoError response × List String :=
  let url := c.URL
  let url := if params ≠ "" then url ++ "?" ++ params else url
  (http hist url, hist ++ [url])

/-- The loop of `getSalt` over `r.Meta`.  The pointer `s` is set by the switch
for the names `salt`, `time` and `sign` only; for any other name it is still
nil when `*s = m.Content` runs. -/
def getSaltLoop : List meta → String × String × String → Run (String × String × String)
  | [], st => .ret st
  | m :: ms, (salt, time, sign) =>
    if m.Name = "salt" then getSaltLoop ms (m.Content, time, sign)
    else if m.Name = "time" then getSaltLoop ms (salt, m.Content, sign)
    else if m.Name = "sign" then getSaltLoop ms (salt, time, m.Content)
    else .panic

/-- The method `Client.getSalt`: returns `(salt, time, sign, err)`. -/
def getSalt (http : Transport) (c : Client) (hist : List String) :
    Run (String × String × String × Option GoError) × List String :=
  match get http c "" hist with
  | (.error err, hist1) => (.ret ("", "", "", some err), hist1)
  | (.ok r, hist1) =>
    match getSaltLoop r.Meta ("", "", "") with
    | .panic => (.panic, hist1)
    | .ret (salt, time, sign) => (.ret (salt, time, sign, none), hist1)

/-- The query string built at the head of `requestUpdate`. -/
def requestParams (c : Client) (salt time sign : String) : String :=
  let params := ""
  let params := params ++ ("salt=" ++ salt)
  let params := params ++ "&" ++ ("time=" ++ time)
  let params := params ++ "&" ++ ("sign=" ++ sign)
  let params := params ++ "&" ++ ("user=" ++ c.User)
  let params := params ++ "&" ++ ("pass=" ++ md5_hex (c.Password ++ "." ++ salt))
  let params := params ++ "&" ++ ("domn=" ++ c.DomainName)
  let params := params ++ "&" ++ ("reqc=" ++ toString c.requestCode)
  if c.requestCode = REGISTER then
    params ++ "&" ++ ("addr=" ++ c.Address)
  else
    params

/-- The loop of `requestUpdate` over `r.Meta`; as in `getSaltLoop`, a name other
than `retc` and `addr` leaves `s` nil. -/
def requestUpdateLoop : List meta → String × String → Run (String × String)
  | [], st => .ret st
  | m :: ms, (retc, addr) =>
    if m.Name = "retc" then requestUpdateLoop ms (m.Content, addr)
    else if m.Name = "addr" then requestUpdateLoop ms (retc, m.Content)
    else .panic

/-- The method `Client.requestUpdate`: returns `(retc, addr, err)`. -/
def requestUpdate (http : Transport) (c : Client) (salt time sign : String)
    (hist : List String) : Run (String × String × Option GoError) × List String :=
  let params := requestParams c salt time sign
  match get http c params hist with
  | (.error err, hist1) => (.ret ("", "", some err), hist1)
  | (.ok r, hist1) =>
    match requestUpdateLoop r.Meta ("", "") with
    | .panic => (.panic, hist1)
    | .ret (retc, addr) => (.ret (retc, addr, none), hist1)

/-- The method `Client.Update`: returns `(addr, err)`. -/
def Update (http : Transport) (c : Client) (hist : List String) :
    Run (String × Option GoError) × List String :=
  match getSalt http c hist with
  | (.panic, hist1) => (.panic, hist1)
  | (.ret (salt, time, sign, err), hist1) =>
    if err ≠ none then
      (.ret ("", err), hist1)
    else
      match requestUpdate http c salt time sign hist1 with
      | (.panic, hist2) => (.panic, hist2)
      | (.ret (retc, addr, err), hist2) =>
        if retc = "0" then
          let addr := if c.requestCode = 0 ∧ addr = "" then c.Address else addr
          (.ret (addr, err), hist2)
        else if retc = "1" then
          (.ret (addr, some (.errorf "Invalid login (or other problem)")), hist2)
        else if retc = "2" then
          (.ret (addr, err), hist2)
        else
          (.ret (addr, some (.errorf "Unknown error")), hist2)

/-- A transport that answers the n-th GET with the n-th entry of a script and
fails once the script is used up. -/
def scripted (script : List (Except GoError response)) : Transport :=
  fun hist _ => script.getD hist.length (.error (.external "EOF"))

/-- Occurrence of `pat` as a substring of `s`. -/
def occursIn (pat s : String) : Prop := pat.data <:+: s.data

instance (pat s : String) : Decidable (occursIn pat s) :=
  inferInstanceAs (Decidable (pat.data <:+: s.data))

end gdip

namespace gdipwebc

/-! ## Option handling of the command (`main.go`) -/

/-- The flag variables after `flag.Parse` and the environment overrides. -/
structure Flags where
  serviceURL : String
  username : String
  password : String
  domainName : String
  address : String
  offline : Bool
  interval : Int
  debug : Bool
  deriving DecidableEq, Repr

/-- The function `validateFlags`: returns `(mode, err)` and the new value of the
global `daemon`. -/
def validateFlags (f : Flags) (daemon : Bool) :
    (gdip.RequestCode × Option gdip.GoError) × Bool :=
  let mode := gdip.REGISTER_PASSIVE
  if f.serviceURL = "" then
    ((mode, some (.errorf "--url is required")), daemon)
  else if f.username = "" then
    ((mode, some (.errorf "--user is required")), daemon)
  else if f.password = "" then
    ((mode, some (.errorf "--password is required")), daemon)
  else if f.domainName = "" then
    ((mode, some (.errorf "--domain-name is required")), daemon)
  else if f.address ≠ "" ∧ f.offline = true then
    ((mode, some (.errorf "Cannot set --address with --offline")), daemon)
  else
    let mode := if f.address ≠ "" then gdip.REGISTER else mode
    let mode := if f.offline = true then gdip.OFFLINE else mode
    let daemon := if f.interval > 0 then true else daemon
    ((mode, none), daemon)

/-- What `main` goes on to do once the options are read: leave with an exit
status, enter `daemonLoop(g)`, or call `g.Update()` once, where `g` is `none`
for the nil pointer. -/
inductive MainAction where
  | exit (status : Nat)
  | daemonLoop (g : gdip.Client)
  | updateOnce (g : Option gdip.Client)
  deriving DecidableEq, Repr

/-- The function `main` up to its first use of the client.  The global `daemon`
starts as false; `logFatal` ends the process only when `daemon` is set. -/
def main (f : Flags) : MainAction :=
  match validateFlags f false with
  | ((mode, err), daemon) =>
    if err ≠ none then
      if daemon = true then .exit 1 else .exit 1
    else
      match gdip.New f.serviceURL f.username f.password f.domainName mode f.address with
      | .error _ => if daemon = true then .exit 1 else .updateOnce none
      | .ok g => if daemon = true then .daemonLoop g else .updateOnce (some g)

end gdipwebc

namespace gdip

/-! ## Auxiliary facts -/

set_option maxRecDepth 100000 in
/-- Digest of the empty string (RFC 1321 test suite). -/
theorem md5_hex_empty : md5_hex "" = "d41d8cd98f00b204e9800998ecf8427e" := by
  rfl

set_option maxRecDepth 100000 in
/-- Digest of `abc` (RFC 1321 test suite). -/
theorem md5_hex_abc : md5_hex "abc" = "900150983cd24fb0d6963f7d28e17f72" := by
  rfl

theorem requestParams_eq (c : Client) (salt time sign : String) :
    requestParams c salt time sign =
      "salt=" ++ salt ++ "&time=" ++ time ++ "&sign=" ++ sign ++ "&user=" ++ c.User
        ++ "&pass=" ++ md5_hex (c.Password ++ "." ++ salt) ++ "&domn=" ++ c.DomainName
        ++ "&reqc=" ++ toString c.requestCode
        ++ (if c.requestCode = REGISTER then "&addr=" ++ c.Address else "") := by
  unfold requestParams
  apply String.ext
  by_cases h : c.requestCode = REGISTER <;> simp [h, String.data_append]

theorem requestParams_ne_empty (c : Client) (salt time sign : String) :
    requestParams c salt time sign ≠ "" := by
  rw [requestParams_eq]
  intro h
  have hlen := congrArg String.length h
  have h5 : "salt=".length = 5 := rfl
  simp [String.length_append, h5] at hlen

theorem New_ok_iff (url user passwd domain : String) (reqCode : RequestCode) (addr : String)
    (c : Client) :
    New url user passwd domain reqCode addr = .ok c ↔
      (url ≠ "" ∧ user ≠ "" ∧ passwd ≠ "" ∧ ¬(reqCode = REGISTER ∧ addr = "")) ∧
        c = ⟨url, user, md5_hex passwd, domain, reqCode, addr⟩ := by
  unfold New
  by_cases h1 : url = ""
  · simp [h1]
  by_cases h2 : user = ""
  · simp [h1, h2]
  by_cases h3 : passwd = ""
  · simp [h1, h2, h3]
  by_cases h4 : reqCode = REGISTER ∧ addr = ""
  · simp [h1, h2, h3, h4]
  · simp only [h1, h2, h3, h4, if_false, not_false_eq_true, and_self, true_and, ne_eq]
    constructor
    · intro h; injection h with h; exact h.symm
    · intro h; rw [h]

theorem getSalt_of_error (http : Transport) (c : Client) (hist : List String) (e : GoError)
    (h1 : http hist c.URL = .error e) :
    getSalt http c hist = (.ret ("", "", "", some e), hist ++ [c.URL]) := by
  simp [getSalt, get, h1]

theorem getSalt_of_ok (http : Transport) (c : Client) (hist : List String) (r : response)
    (h1 : http hist c.URL = .ok r) :
    getSalt http c hist =
      (match getSaltLoop r.Meta ("", "", "") with
        | .panic => .panic
        | .ret (salt, time, sign) => .ret (salt, time, sign, none), hist ++ [c.URL]) := by
  simp only [getSalt, get]
  simp only [ne_eq, not_true_eq_false, if_false, h1]
  cases getSaltLoop r.Meta ("", "", "") <;> simp

theorem requestUpdate_of_error (http : Transport) (c : Client) (salt time sign : String)
    (hist : List String) (e : GoError)
    (h2 : http hist (c.URL ++ "?" ++ requestParams c salt time sign) = .error e) :
    requestUpdate http c salt time sign hist =
      (.ret ("", "", some e), hist ++ [c.URL ++ "?" ++ requestParams c salt time sign]) := by
  simp [requestUpdate, get, requestParams_ne_empty, h2]

theorem requestUpdate_of_ok (http : Transport) (c : Client) (salt time sign : String)
    (hist : List String) (r : response)
    (h2 : http hist (c.URL ++ "?" ++ requestParams c salt time sign) = .ok r) :
    requestUpdate http c salt time sign hist =
      (match requestUpdateLoop r.Meta ("", "") with
        | .panic => .panic
        | .ret (retc, addr) => .ret (retc, addr, none),
        hist ++ [c.URL ++ "?" ++ requestParams c salt time sign]) := by
  simp only [requestUpdate, get]
  simp only [ne_eq, requestParams_ne_empty, not_false_eq_true, if_true, h2]
  cases requestUpdateLoop r.Meta ("", "") <;> simp

/-- Both exchanges succeed and both extraction loops run to their end: the
result of `Update` as a function of the extracted `retc` and `addr`. -/
theorem Update_of_exchanges (http : Transport) (c : Client) (hist : List String)
    (r1 r2 : response) (salt time sign retc addr : String)
    (h1 : http hist c.URL = .ok r1)
    (hs : getSaltLoop r1.Meta ("", "", "") = .ret (salt, time, sign))
    (h2 : http (hist ++ [c.URL]) (c.URL ++ "?" ++ requestParams c salt time sign) = .ok r2)
    (hr : requestUpdateLoop r2.Meta ("", "") = .ret (retc, addr)) :
    Update http c hist =
      (if retc = "0" then
          .ret (if c.requestCode = 0 ∧ addr = "" then c.Address else addr, none)
        else if retc = "1" then
          .ret (addr, some (.errorf "Invalid login (or other problem)"))
        else if retc = "2" then .ret (addr, none)
        else .ret (addr, some (.errorf "Unknown error")),
        hist ++ [c.URL] ++ [c.URL ++ "?" ++ requestParams c salt time sign]) := by
  unfold Update
  rw [getSalt_of_ok http c hist r1 h1, hs]
  simp only [ne_eq, not_true_eq_false, if_false]
  rw [requestUpdate_of_ok http c salt time sign _ r2 h2, hr]
  by_cases h0 : retc = "0"
  · simp [h0]
  by_cases h1 : retc = "1"
  · simp [h0, h1]
  by_cases h2 : retc = "2"
  · simp [h0, h1, h2]
  · simp [h0, h1, h2]

/-- The loop of `getSalt` stops with a panic exactly when the document has a
`meta` element whose name is none of `salt`, `time`, `sign`. -/
theorem getSaltLoop_eq_panic_iff (ms : List meta) (st : String × String × String) :
    getSaltLoop ms st = .panic ↔
      ∃ m ∈ ms, m.Name ≠ "salt" ∧ m.Name ≠ "time" ∧ m.Name ≠ "sign" := by
  induction ms generalizing st with
  | nil => simp [getSaltLoop]
  | cons m ms ih =>
    obtain ⟨salt, time, sign⟩ := st
    unfold getSaltLoop
    by_cases h1 : m.Name = "salt"
    · simp [h1, ih]
    by_cases h2 : m.Name = "time"
    · simp [h2, ih]
    by_cases h3 : m.Name = "sign"
    · simp [h3, ih]
    · simp [h1, h2, h3]

/-- The loop of `requestUpdate` stops with a panic exactly when the document has
a `meta` element whose name is neither `retc` nor `addr`. -/
theorem requestUpdateLoop_eq_panic_iff (ms : List meta) (st : String × String) :
    requestUpdateLoop ms st = .panic ↔ ∃ m ∈ ms, m.Name ≠ "retc" ∧ m.Name ≠ "addr" := by
  induction ms generalizing st with
  | nil => simp [requestUpdateLoop]
  | cons m ms ih =>
    obtain ⟨retc, addr⟩ := st
    unfold requestUpdateLoop
    by_cases h1 : m.Name = "retc"
    · simp [h1, ih]
    by_cases h2 : m.Name = "addr"
    · simp [h2, ih]
    · simp [h1, h2]

/-- The first exchange succeeds and the second one fails with `e`: `Update`
reaches its last branch with `retc = ""` and replaces `e`. -/
theorem Update_of_second_error (http : Transport) (c : Client) (hist : List String)
    (r1 : response) (salt time sign : String) (e : GoError)
    (h1 : http hist c.URL = .ok r1)
    (hs : getSaltLoop r1.Meta ("", "", "") = .ret (salt, time, sign))
    (h2 : http (hist ++ [c.URL]) (c.URL ++ "?" ++ requestParams c salt time sign) = .error e) :
    Update http c hist =
      (.ret ("", some (.errorf "Unknown error")),
        hist ++ [c.URL] ++ [c.URL ++ "?" ++ requestParams c salt time sign]) := by
  unfold Update
  rw [getSalt_of_ok http c hist r1 h1, hs]
  simp only [ne_eq, not_true_eq_false, if_false]
  rw [requestUpdate_of_error http c salt time sign _ e h2]
  simp

/-! ## The query string of the second request -/

/-- C1: for a client built by `New` from the plaintext password `P`, the query
string that `requestUpdate` hands to the second GET is
`salt=S&time=T&sign=G&user=U&pass=H&domn=D&reqc=N` with
`H = md5_hex (md5_hex P ++ "." ++ S)` and `N` the decimal mode, followed by
`&addr=A` exactly in REGISTER mode; the modes print as 0, 1 and 2. -/
theorem requestUpdate_query_string (http : Transport) (hist : List String)
    (url U P D : String) (M : RequestCode) (A : String) (c : Client) (S T G : String)
    (hNew : New url U P D M A = .ok c) :
    requestParams c S T G =
        "salt=" ++ S ++ "&time=" ++ T ++ "&sign=" ++ G ++ "&user=" ++ U
          ++ "&pass=" ++ md5_hex (md5_hex P ++ "." ++ S) ++ "&domn=" ++ D
          ++ "&reqc=" ++ toString M ++ (if M = REGISTER then "&addr=" ++ A else "")
      ∧ (requestUpdate http c S T G hist).2 = hist ++ [url ++ "?" ++ requestParams c S T G]
      ∧ toString REGISTER = "0" ∧ toString OFFLINE = "1" ∧ toString REGISTER_PASSIVE = "2" := by
  obtain ⟨-, rfl⟩ := (New_ok_iff url U P D M A c).1 hNew
  refine ⟨requestParams_eq _ S T G, ?_, rfl, rfl, rfl⟩
  simp [requestUpdate, get, requestParams_ne_empty]
  cases http hist _ <;> simp
  cases requestUpdateLoop _ _ <;> simp

set_option maxRecDepth 100000 in
theorem requestUpdate_query_string_witness :
    New "http://h/gdip" "u" "secret" "d.example" REGISTER "198.51.100.7"
        = .ok ⟨"http://h/gdip", "u", md5_hex "secret", "d.example", REGISTER, "198.51.100.7"⟩
      ∧ requestParams
          ⟨"http://h/gdip", "u", md5_hex "secret", "d.example", REGISTER, "198.51.100.7"⟩
          "abc" "123" "xyz"
        = "salt=abc&time=123&sign=xyz&user=u&pass=af90102cf8715bbf16199de5b975e175"
            ++ "&domn=d.example&reqc=0&addr=198.51.100.7" :=
  ⟨rfl, (requestUpdate_query_string (scripted []) [] "http://h/gdip" "u" "secret" "d.example"
    REGISTER "198.51.100.7" _ "abc" "123" "xyz" rfl).1.trans (by rfl)⟩

/-! ## Outcome of an update cycle -/

/-- Both exchanges succeed and the loop of `requestUpdate` runs to its end with
`retc = "0"` and the address value `a`: `Update` returns no error; the address
is `a` when `a` is not empty, the configured `Address` when `a` is empty in
REGISTER mode, and the empty string when `a` is empty in any other mode. -/
theorem Update_retc_zero_address (http : Transport) (c : Client) (hist : List String)
    (r1 r2 : response) (salt time sign a : String)
    (h1 : http hist c.URL = .ok r1)
    (hs : getSaltLoop r1.Meta ("", "", "") = .ret (salt, time, sign))
    (h2 : http (hist ++ [c.URL]) (c.URL ++ "?" ++ requestParams c salt time sign) = .ok r2)
    (hr : requestUpdateLoop r2.Meta ("", "") = .ret ("0", a)) :
    (Update http c hist).1 =
      .ret (if a ≠ "" then a else if c.requestCode = REGISTER then c.Address else "", none) := by
  rw [Update_of_exchanges http c hist r1 r2 salt time sign "0" a h1 hs h2 hr]
  by_cases ha : a = ""
  · by_cases hm : c.requestCode = 0 <;> simp [ha, hm]
  · simp [ha]

/-- Both exchanges succeed and the loop of `requestUpdate` runs to its end with
`retc` and `addr`: the error of `Update` depends on `retc` only, none for "0",
`Invalid login (or other problem)` for "1", none for "2" and `Unknown error`
for every other string. -/
theorem Update_error_by_retc (http : Transport) (c : Client) (hist : List String)
    (r1 r2 : response) (salt time sign retc addr : String)
    (h1 : http hist c.URL = .ok r1)
    (hs : getSaltLoop r1.Meta ("", "", "") = .ret (salt, time, sign))
    (h2 : http (hist ++ [c.URL]) (c.URL ++ "?" ++ requestParams c salt time sign) = .ok r2)
    (hr : requestUpdateLoop r2.Meta ("", "") = .ret (retc, addr)) :
    ∃ a err, (Update http c hist).1 = .ret (a, err) ∧
      (retc = "0" → err = none) ∧
      (retc = "1" → err = some (.errorf "Invalid login (or other problem)")) ∧
      (retc = "2" → err = none) ∧
      (retc ≠ "0" → retc ≠ "1" → retc ≠ "2" → err = some (.errorf "Unknown error")) ∧
      (err ≠ none ↔ retc ≠ "0" ∧ retc ≠ "2") := by
  rw [Update_of_exchanges http c hist r1 r2 salt time sign retc addr h1 hs h2 hr]
  by_cases h0 : retc = "0"
  · exact ⟨if c.requestCode = 0 ∧ addr = "" then c.Address else addr, none,
      by simp [h0], by simp [h0]⟩
  by_cases h1 : retc = "1"
  · exact ⟨addr, some (.errorf "Invalid login (or other problem)"),
      by simp [h1], by simp [h1]⟩
  by_cases h2 : retc = "2"
  · exact ⟨addr, none, by simp [h2], by simp [h2]⟩
  · exact ⟨addr, some (.errorf "Unknown error"), by simp [h0, h1, h2], by simp [h0, h1, h2]⟩

/-- Both exchanges succeed and the second document has a `meta` element whose
name is neither `retc` nor `addr`: `Update` does not return. -/
theorem Update_of_stray_tag (http : Transport) (c : Client) (hist : List String)
    (r1 r2 : response) (salt time sign : String) (m : meta)
    (h1 : http hist c.URL = .ok r1)
    (hs : getSaltLoop r1.Meta ("", "", "") = .ret (salt, time, sign))
    (h2 : http (hist ++ [c.URL]) (c.URL ++ "?" ++ requestParams c salt time sign) = .ok r2)
    (hm : m ∈ r2.Meta) (hretc : m.Name ≠ "retc") (haddr : m.Name ≠ "addr") :
    Update http c hist =
      (.panic, hist ++ [c.URL] ++ [c.URL ++ "?" ++ requestParams c salt time sign]) := by
  have hp : requestUpdateLoop r2.Meta ("", "") = .panic :=
    (requestUpdateLoop_eq_panic_iff _ _).2 ⟨m, hm, hretc, haddr⟩
  unfold Update
  rw [getSalt_of_ok http c hist r1 h1, hs]
  simp only [ne_eq, not_true_eq_false, if_false]
  rw [requestUpdate_of_ok http c salt time sign _ r2 h2, hp]

/-- C2 fails on the code: in REGISTER_PASSIVE mode the second response with the
pairs (retc, 0), (addr, 203.0.113.5) makes `Update` return the address
203.0.113.5 and no error, and the same response with one more pair
(generator, GnuDIP) makes `Update` stop with a nil pointer dereference: it
returns neither that address nor any other result. -/
theorem Update_retc_zero_stray_tag_panics :
    (Update
        (scripted [.ok ⟨[⟨"salt", "abc"⟩, ⟨"time", "123"⟩, ⟨"sign", "xyz"⟩]⟩,
          .ok ⟨[⟨"retc", "0"⟩, ⟨"addr", "203.0.113.5"⟩]⟩])
        ⟨"http://h/gdip", "u", md5_hex "secret", "d.example", REGISTER_PASSIVE, ""⟩ []).1
        = .ret ("203.0.113.5", none)
      ∧ (Update
        (scripted [.ok ⟨[⟨"salt", "abc"⟩, ⟨"time", "123"⟩, ⟨"sign", "xyz"⟩]⟩,
          .ok ⟨[⟨"retc", "0"⟩, ⟨"addr", "203.0.113.5"⟩, ⟨"generator", "GnuDIP"⟩]⟩])
        ⟨"http://h/gdip", "u", md5_hex "secret", "d.example", REGISTER_PASSIVE, ""⟩ []).1
        = .panic
      ∧ (Update
        (scripted [.ok ⟨[⟨"salt", "abc"⟩, ⟨"time", "123"⟩, ⟨"sign", "xyz"⟩]⟩,
          .ok ⟨[⟨"retc", "0"⟩, ⟨"addr", "203.0.113.5"⟩, ⟨"generator", "GnuDIP"⟩]⟩])
        ⟨"http://h/gdip", "u", md5_hex "secret", "d.example", REGISTER_PASSIVE, ""⟩ []).1
        ≠ .ret ("203.0.113.5", none) := by
  refine ⟨rfl, rfl, ?_⟩
  decide

/-- C3 fails on the code: with the second response (retc, 1), (addr, empty)
`Update` returns the error `Invalid login (or other problem)`; with a `meta`
element without a name in front of (retc, 1), and with (retc, 9) followed by
(generator, GnuDIP), `Update` stops with a nil pointer dereference and returns
no error value at all. -/
theorem Update_error_stray_tag_panics :
    (Update
        (scripted [.ok ⟨[⟨"salt", "abc"⟩, ⟨"time", "123"⟩, ⟨"sign", "xyz"⟩]⟩,
          .ok ⟨[⟨"retc", "1"⟩, ⟨"addr", ""⟩]⟩])
        ⟨"http://h/gdip", "u", md5_hex "secret", "d.example", OFFLINE, ""⟩ []).1
        = .ret ("", some (.errorf "Invalid login (or other problem)"))
      ∧ (Update
        (scripted [.ok ⟨[⟨"salt", "abc"⟩, ⟨"time", "123"⟩, ⟨"sign", "xyz"⟩]⟩,
          .ok ⟨[⟨"", "text/html; charset=utf-8"⟩, ⟨"retc", "1"⟩, ⟨"addr", ""⟩]⟩])
        ⟨"http://h/gdip", "u", md5_hex "secret", "d.example", OFFLINE, ""⟩ []).1
        = .panic
      ∧ (Update
        (scripted [.ok ⟨[⟨"salt", "abc"⟩, ⟨"time", "123"⟩, ⟨"sign", "xyz"⟩]⟩,
          .ok ⟨[⟨"retc", "9"⟩, ⟨"generator", "GnuDIP"⟩]⟩])
        ⟨"http://h/gdip", "u", md5_hex "secret", "d.example", OFFLINE, ""⟩ []).1
        = .panic
      ∧ ∀ a err,
        (Update
          (scripted [.ok ⟨[⟨"salt", "abc"⟩, ⟨"time", "123"⟩, ⟨"sign", "xyz"⟩]⟩,
            .ok ⟨[⟨"retc", "9"⟩, ⟨"generator", "GnuDIP"⟩]⟩])
          ⟨"http://h/gdip", "u", md5_hex "secret", "d.example", OFFLINE, ""⟩ []).1
          ≠ .ret (a, err) := by
  refine ⟨rfl, rfl, rfl, fun a err h => ?_⟩
  have hp :
      (Update
        (scripted [.ok ⟨[⟨"salt", "abc"⟩, ⟨"time", "123"⟩, ⟨"sign", "xyz"⟩]⟩,
          .ok ⟨[⟨"retc", "9"⟩, ⟨"generator", "GnuDIP"⟩]⟩])
        ⟨"http://h/gdip", "u", md5_hex "secret", "d.example", OFFLINE, ""⟩ []).1
        = .panic := rfl
  rw [hp] at h
  exact Run.noConfusion h

/-- C4, as the code has it: when both exchanges succeed and the second response
yields `retc = "2"`, `Update` returns no error and the address is the `addr`
value of that response, unchanged; it is empty when that value is empty. -/
theorem Update_retc_two_address (http : Transport) (c : Client) (hist : List String)
    (r1 r2 : response) (salt time sign a : String)
    (h1 : http hist c.URL = .ok r1)
    (hs : getSaltLoop r1.Meta ("", "", "") = .ret (salt, time, sign))
    (h2 : http (hist ++ [c.URL]) (c.URL ++ "?" ++ requestParams c salt time sign) = .ok r2)
    (hr : requestUpdateLoop r2.Meta ("", "") = .ret ("2", a)) :
    (Update http c hist).1 = .ret (a, none) := by
  rw [Update_of_exchanges http c hist r1 r2 salt time sign "2" a h1 hs h2 hr]
  simp

theorem Update_retc_two_address_witness :
    (Update
        (scripted [.ok ⟨[⟨"salt", "abc"⟩, ⟨"time", "123"⟩, ⟨"sign", "xyz"⟩]⟩,
          .ok ⟨[⟨"retc", "2"⟩]⟩])
        ⟨"http://h/gdip", "u", md5_hex "secret", "d.example", OFFLINE, ""⟩ []).1
      = .ret ("", none) :=
  Update_retc_two_address _ _ [] ⟨[⟨"salt", "abc"⟩, ⟨"time", "123"⟩, ⟨"sign", "xyz"⟩]⟩
    ⟨[⟨"retc", "2"⟩]⟩ "abc" "123" "xyz" "" rfl rfl rfl rfl

/-- C4 as stated fails: with `retc = "2"` and `addr = "203.0.113.5"` in the
second response, `Update` returns the address "203.0.113.5", not the empty
string. -/
theorem Update_retc_two_keeps_addr :
    (Update
        (scripted [.ok ⟨[⟨"salt", "abc"⟩, ⟨"time", "123"⟩, ⟨"sign", "xyz"⟩]⟩,
          .ok ⟨[⟨"retc", "2"⟩, ⟨"addr", "203.0.113.5"⟩]⟩])
        ⟨"http://h/gdip", "u", md5_hex "secret", "d.example", OFFLINE, ""⟩ []).1
        = .ret ("203.0.113.5", none)
      ∧ (Update
        (scripted [.ok ⟨[⟨"salt", "abc"⟩, ⟨"time", "123"⟩, ⟨"sign", "xyz"⟩]⟩,
          .ok ⟨[⟨"retc", "2"⟩, ⟨"addr", "203.0.113.5"⟩]⟩])
        ⟨"http://h/gdip", "u", md5_hex "secret", "d.example", OFFLINE, ""⟩ []).1
        ≠ .ret ("", none) := by
  constructor
  · rfl
  · decide

/-- C5: when the first exchange fails with error `e`, `Update` returns `e` with
an empty address, and the only GET issued is the one of the bare service URL. -/
theorem Update_first_exchange_error (http : Transport) (c : Client) (hist : List String)
    (e : GoError) (h1 : http hist c.URL = .error e) :
    Update http c hist = (.ret ("", some e), hist ++ [c.URL]) := by
  unfold Update
  rw [getSalt_of_error http c hist e h1]
  simp

theorem Update_first_exchange_error_witness :
    Update (scripted [.error (.external "connection refused")])
        ⟨"http://h/gdip", "u", md5_hex "secret", "d.example", OFFLINE, ""⟩ []
      = (.ret ("", some (.external "connection refused")), ["http://h/gdip"]) :=
  Update_first_exchange_error _ _ [] (.external "connection refused") rfl

/-- C6 fails on the code: the first exchange succeeds, the second GET is issued
and fails with the transport error `connection refused`, and `Update` returns
the error `Unknown error` in place of that cause. -/
theorem Update_second_exchange_error_masked :
    (Update
        (scripted [.ok ⟨[⟨"salt", "abc"⟩, ⟨"time", "123"⟩, ⟨"sign", "xyz"⟩]⟩,
          .error (.external "connection refused")])
        ⟨"http://h/gdip", "u", md5_hex "secret", "d.example", OFFLINE, ""⟩ []).1
        = .ret ("", some (.errorf "Unknown error"))
      ∧ (Update
        (scripted [.ok ⟨[⟨"salt", "abc"⟩, ⟨"time", "123"⟩, ⟨"sign", "xyz"⟩]⟩,
          .error (.external "connection refused")])
        ⟨"http://h/gdip", "u", md5_hex "secret", "d.example", OFFLINE, ""⟩ []).1
        ≠ .ret ("", some (.external "connection refused"))
      ∧ (Update
        (scripted [.ok ⟨[⟨"salt", "abc"⟩, ⟨"time", "123"⟩, ⟨"sign", "xyz"⟩]⟩,
          .error (.external "connection refused")])
        ⟨"http://h/gdip", "u", md5_hex "secret", "d.example", OFFLINE, ""⟩ []).2.length
        = 2 := by
  refine ⟨rfl, ?_, rfl⟩
  decide

/-- C7 fails on the code: for the first response with the pairs (salt, abc),
(time, 123), (sign, xyz) the extraction returns abc, 123 and xyz, and with one
more pair of another name it stops with a nil pointer dereference, and so does
`Update`. -/
theorem getSalt_unrelated_tag_panics :
    getSaltLoop [⟨"salt", "abc"⟩, ⟨"time", "123"⟩, ⟨"sign", "xyz"⟩] ("", "", "")
        = .ret ("abc", "123", "xyz")
      ∧ getSaltLoop [⟨"salt", "abc"⟩, ⟨"time", "123"⟩, ⟨"sign", "xyz"⟩,
          ⟨"generator", "GnuDIP"⟩] ("", "", "") = .panic
      ∧ getSalt
          (scripted [.ok ⟨[⟨"salt", "abc"⟩, ⟨"time", "123"⟩, ⟨"sign", "xyz"⟩,
            ⟨"generator", "GnuDIP"⟩]⟩])
          ⟨"http://h/gdip", "u", md5_hex "secret", "d.example", OFFLINE, ""⟩ []
        = (.panic, ["http://h/gdip"])
      ∧ Update
          (scripted [.ok ⟨[⟨"salt", "abc"⟩, ⟨"time", "123"⟩, ⟨"sign", "xyz"⟩,
            ⟨"generator", "GnuDIP"⟩]⟩])
          ⟨"http://h/gdip", "u", md5_hex "secret", "d.example", OFFLINE, ""⟩ []
        = (.panic, ["http://h/gdip"]) := by
  refine ⟨rfl, rfl, rfl, rfl⟩

end gdip

namespace gdip

/-! ## Construction of the client -/

/-- C9: `New` returns an error, and no client, exactly when `url`, `user` or
`passwd` is empty, or `reqCode` is REGISTER and `addr` is empty; a client
returned in REGISTER mode has a non-empty `Address`; outside REGISTER mode any
`domain` and any `addr` are accepted. -/
theorem New_error_iff (url user passwd domain : String) (reqCode : RequestCode)
    (addr : String) :
    ((∃ e, New url user passwd domain reqCode addr = .error e) ↔
        (url = "" ∨ user = "" ∨ passwd = "" ∨ (reqCode = REGISTER ∧ addr = "")))
      ∧ ((∃ c, New url user passwd domain reqCode addr = .ok c) ↔
        ¬(url = "" ∨ user = "" ∨ passwd = "" ∨ (reqCode = REGISTER ∧ addr = "")))
      ∧ (∀ c, New url user passwd domain reqCode addr = .ok c →
          c.requestCode = REGISTER → c.Address ≠ "")
      ∧ (url ≠ "" → user ≠ "" → passwd ≠ "" → reqCode ≠ REGISTER →
          New url user passwd domain reqCode addr
            = .ok ⟨url, user, md5_hex passwd, domain, reqCode, addr⟩) := by
  refine ⟨?_, ?_, ?_, ?_⟩
  · unfold New
    by_cases h1 : url = ""
    · simp [h1]
    by_cases h2 : user = ""
    · simp [h1, h2]
    by_cases h3 : passwd = ""
    · simp [h1, h2, h3]
    by_cases h4 : reqCode = REGISTER ∧ addr = ""
    · simp [h1, h2, h3, h4]
    · simp [h1, h2, h3, h4]
  · constructor
    · rintro ⟨c, hc⟩
      have := ((New_ok_iff url user passwd domain reqCode addr c).1 hc).1
      tauto
    · intro h
      refine ⟨⟨url, user, md5_hex passwd, domain, reqCode, addr⟩, ?_⟩
      rw [New_ok_iff]
      refine ⟨?_, rfl⟩
      tauto
  · intro c hc hreg
    obtain ⟨⟨-, -, -, h4⟩, rfl⟩ := (New_ok_iff url user passwd domain reqCode addr c).1 hc
    intro ha
    exact h4 ⟨hreg, ha⟩
  · intro h1 h2 h3 h4
    rw [New_ok_iff]
    exact ⟨⟨h1, h2, h3, fun h => h4 h.1⟩, rfl⟩

theorem New_error_iff_witness :
    New "http://h/gdip" "u" "secret" "" OFFLINE "198.51.100.7"
      = .ok ⟨"http://h/gdip", "u", md5_hex "secret", "", OFFLINE, "198.51.100.7"⟩ :=
  (New_error_iff "http://h/gdip" "u" "secret" "" OFFLINE "198.51.100.7").2.2.2
    (by decide) (by decide) (by decide) (by decide)

end gdip

namespace gdipwebc

open gdip

/-! ## Option handling -/

theorem validateFlags_ok_iff (f : Flags) (daemon daemon' : Bool) (m : RequestCode) :
    validateFlags f daemon = ((m, none), daemon') ↔
      f.serviceURL ≠ "" ∧ f.username ≠ "" ∧ f.password ≠ "" ∧ f.domainName ≠ "" ∧
        ¬(f.address ≠ "" ∧ f.offline = true) ∧
        m = (if f.offline = true then OFFLINE
              else if f.address ≠ "" then REGISTER else REGISTER_PASSIVE) ∧
        daemon' = (if f.interval > 0 then true else daemon) := by
  unfold validateFlags
  by_cases h1 : f.serviceURL = ""
  · simp [h1]
  by_cases h2 : f.username = ""
  · simp [h1, h2]
  by_cases h3 : f.password = ""
  · simp [h1, h2, h3]
  by_cases h4 : f.domainName = ""
  · simp [h1, h2, h3, h4]
  by_cases h5 : f.address ≠ "" ∧ f.offline = true
  · simp [h1, h2, h3, h4, h5]
  · simp only [h1, h2, h3, h4, h5, if_false, ne_eq, not_false_eq_true, true_and,
      Prod.mk.injEq, and_true]
    constructor
    · rintro ⟨h, h'⟩
      exact ⟨h.symm, h'.symm⟩
    · rintro ⟨h, h'⟩
      exact ⟨h.symm, h'.symm⟩

theorem validateFlags_error_daemon (f : Flags) (daemon : Bool)
    (h : (validateFlags f daemon).1.2 ≠ none) : (validateFlags f daemon).2 = daemon := by
  unfold validateFlags at h ⊢
  by_cases h1 : f.serviceURL = ""
  · simp [h1]
  by_cases h2 : f.username = ""
  · simp [h1, h2]
  by_cases h3 : f.password = ""
  · simp [h1, h2, h3]
  by_cases h4 : f.domainName = ""
  · simp [h1, h2, h3, h4]
  by_cases h5 : f.address ≠ "" ∧ f.offline = true
  · simp [h1, h2, h3, h4, h5]
  · simp [h1, h2, h3, h4, h5] at h

theorem main_of_validateFlags_ok (f : Flags) (daemon' : Bool) (m : RequestCode) (c : Client)
    (hv : validateFlags f false = ((m, none), daemon'))
    (hn : New f.serviceURL f.username f.password f.domainName m f.address = .ok c) :
    main f = if daemon' = true then .daemonLoop c else .updateOnce (some c) := by
  unfold main
  rw [hv]
  simp only [ne_eq, not_true_eq_false, if_false]
  rw [hn]

/-- C10: when `validateFlags` returns the mode `m` and no error, `New` on the same
flags and `m` returns a client; `m` is REGISTER exactly when the address is set,
OFFLINE exactly when `offline` is set, and REGISTER_PASSIVE otherwise; `main`
then runs the daemon loop or a single `Update` on that client, and in no case
calls `Update` on a nil client. -/
theorem validateFlags_then_New (f : Flags) :
    (∀ (daemon daemon' : Bool) (m : RequestCode),
        validateFlags f daemon = ((m, none), daemon') →
        (∃ c, New f.serviceURL f.username f.password f.domainName m f.address = .ok c ∧
            main f = if f.interval > 0 then .daemonLoop c else .updateOnce (some c)) ∧
          (m = REGISTER ↔ f.address ≠ "") ∧
          (m = OFFLINE ↔ f.offline = true) ∧
          (m = REGISTER_PASSIVE ↔ f.address = "" ∧ f.offline = false))
      ∧ main f ≠ .updateOnce none := by
  have key : ∀ (daemon daemon' : Bool) (m : RequestCode),
      validateFlags f daemon = ((m, none), daemon') →
      ∃ c, New f.serviceURL f.username f.password f.domainName m f.address = .ok c ∧
        main f = if f.interval > 0 then .daemonLoop c else .updateOnce (some c) := by
    intro daemon daemon' m h
    obtain ⟨h1, h2, h3, h4, h5, hm, -⟩ := (validateFlags_ok_iff f daemon daemon' m).1 h
    have hreg : ¬(m = REGISTER ∧ f.address = "") := by
      rintro ⟨hm0, ha⟩
      rw [hm] at hm0
      by_cases ho : f.offline = true <;> simp [ho, ha] at hm0
    have hn : New f.serviceURL f.username f.password f.domainName m f.address
        = .ok ⟨f.serviceURL, f.username, md5_hex f.password, f.domainName, m, f.address⟩ :=
      (New_ok_iff _ _ _ _ _ _ _).2 ⟨⟨h1, h2, h3, hreg⟩, rfl⟩
    refine ⟨_, hn, ?_⟩
    have hv : validateFlags f false = ((m, none), if f.interval > 0 then true else false) :=
      (validateFlags_ok_iff f false _ m).2 ⟨h1, h2, h3, h4, h5, hm, rfl⟩
    rw [main_of_validateFlags_ok f _ m _ hv hn]
    by_cases hi : f.interval > 0 <;> simp [hi]
  refine ⟨fun daemon daemon' m h => ⟨key daemon daemon' m h, ?_⟩, ?_⟩
  · obtain ⟨-, -, -, -, h5, hm, -⟩ := (validateFlags_ok_iff f daemon daemon' m).1 h
    subst hm
    by_cases ho : f.offline = true <;> by_cases ha : f.address = "" <;> simp_all
  · by_cases herr : (validateFlags f false).1.2 = none
    · have hv : validateFlags f false
          = (((validateFlags f false).1.1, none), (validateFlags f false).2) := by
        rw [← herr]
      obtain ⟨c, -, hmain⟩ := key false _ _ hv
      rw [hmain]
      by_cases hi : f.interval > 0 <;> simp [hi]
    · have hd := validateFlags_error_daemon f false herr
      unfold main
      generalize validateFlags f false = v at herr hd
      obtain ⟨⟨mode, err⟩, d⟩ := v
      simp only at herr hd
      subst hd
      simp [herr]

theorem validateFlags_then_New_witness :
    ∃ c, New "http://h/gdip" "u" "secret" "d.example" REGISTER "198.51.100.7" = .ok c ∧
      main ⟨"http://h/gdip", "u", "secret", "d.example", "198.51.100.7", false, 0, false⟩
        = .updateOnce (some c) :=
  ((validateFlags_then_New
      ⟨"http://h/gdip", "u", "secret", "d.example", "198.51.100.7", false, 0, false⟩).1
    false false REGISTER rfl).1

end gdipwebc

namespace gdip

/-! ## Occurrences of `addr=` in the query string -/

theorem isPrefix_left_of_not_mem {α : Type} (p l1 l2 : List α) (c : α) (hc : c ∉ p)
    (h : p <+: l1 ++ c :: l2) : p <+: l1 := by
  induction l1 generalizing p with
  | nil =>
    cases p with
    | nil => exact List.prefix_refl _
    | cons a t =>
      simp only [List.nil_append, List.cons_prefix_cons] at h
      exact absurd (by simp [h.1]) hc
  | cons x l1 ih =>
    cases p with
    | nil => exact List.nil_prefix
    | cons a t =>
      simp only [List.cons_append, List.cons_prefix_cons] at h ⊢
      exact ⟨h.1, ih t (fun ht => hc (List.mem_cons_of_mem _ ht)) h.2⟩

/-- A pattern without the character `c` occurs in `l1 ++ c :: l2` exactly when it
occurs in `l1` or in `l2`. -/
theorem isInfix_append_cons_iff {α : Type} (p l1 l2 : List α) (c : α) (hc : c ∉ p) :
    p <:+: l1 ++ c :: l2 ↔ p <:+: l1 ∨ p <:+: l2 := by
  constructor
  · intro h
    induction l1 with
    | nil =>
      rw [List.nil_append, List.infix_cons_iff] at h
      rcases h with h | h
      · exact Or.inl (isPrefix_left_of_not_mem p [] l2 c hc h).isInfix
      · exact Or.inr h
    | cons x l1 ih =>
      rw [List.cons_append, List.infix_cons_iff] at h
      rcases h with h | h
      · exact Or.inl (isPrefix_left_of_not_mem p (x :: l1) l2 c hc h).isInfix
      · rcases ih h with h | h
        · exact Or.inl (List.infix_cons h)
        · exact Or.inr h
  · rintro (h | h)
    · exact h.trans (List.infix_append' [] l1 (c :: l2))
    · exact h.trans ((List.suffix_cons c l2).isInfix.trans (List.suffix_append l1 _).isInfix)

theorem hexDigit_mem (n : Nat) : hexDigit n ∈ "0123456789abcdef".data := by
  unfold hexDigit
  by_cases h : n < 16
  · interval_cases n <;> decide
  · rw [List.getD_eq_default _ _ (by simpa using h)]
    decide

theorem foldl_sprintf02x_hex (bs : List Nat) (acc : String)
    (hacc : ∀ ch ∈ acc.data, ch ∈ "0123456789abcdef".data) :
    ∀ ch ∈ (bs.foldl (fun xs b => xs ++ sprintf02x b) acc).data,
      ch ∈ "0123456789abcdef".data := by
  induction bs generalizing acc with
  | nil => simpa using hacc
  | cons b bs ih =>
    rw [List.foldl_cons]
    apply ih
    intro ch hch
    rw [String.data_append, List.mem_append] at hch
    rcases hch with hch | hch
    · exact hacc ch hch
    · simp only [sprintf02x, List.mem_cons, List.mem_nil_iff, or_false] at hch
      rcases hch with rfl | rfl <;> exact hexDigit_mem _

/-- Every character of `md5_hex s` is a lower-case hexadecimal digit. -/
theorem md5_hex_hex (s : String) : ∀ ch ∈ (md5_hex s).data, ch ∈ "0123456789abcdef".data :=
  foldl_sprintf02x_hex _ "" (by simp)

theorem addr_not_in_md5_hex (s : String) : ¬ occursIn "addr=" (md5_hex s) := by
  intro h
  have hr : 'r' ∈ (md5_hex s).data := h.subset (by decide)
  exact absurd (md5_hex_hex s 'r' hr) (by decide)

/-- The query string of a client in OFFLINE or REGISTER_PASSIVE mode contains
`addr=` exactly when one of the values inserted verbatim does. -/
theorem occursIn_requestParams_iff (c : Client) (salt time sign : String)
    (hm : c.requestCode = OFFLINE ∨ c.requestCode = REGISTER_PASSIVE) :
    occursIn "addr=" (requestParams c salt time sign) ↔
      occursIn "addr=" salt ∨ occursIn "addr=" time ∨ occursIn "addr=" sign ∨
        occursIn "addr=" c.User ∨ occursIn "addr=" c.DomainName := by
  have hH := addr_not_in_md5_hex (c.Password ++ "." ++ salt)
  have hp : "addr=".data = ['a', 'd', 'd', 'r', '='] := rfl
  have hamp : '&' ∉ ['a', 'd', 'd', 'r', '='] := by decide
  unfold occursIn at hH ⊢
  rw [hp] at hH ⊢
  rw [requestParams_eq]
  have h1 : (toString (1 : Int)).data = ['1'] := rfl
  have h2 : (toString (2 : Int)).data = ['2'] := rfl
  have k1 : "salt=".data = ['s', 'a', 'l', 't', '='] := rfl
  have k2 : "&time=".data = ['&', 't', 'i', 'm', 'e', '='] := rfl
  have k3 : "&sign=".data = ['&', 's', 'i', 'g', 'n', '='] := rfl
  have k4 : "&user=".data = ['&', 'u', 's', 'e', 'r', '='] := rfl
  have k5 : "&pass=".data = ['&', 'p', 'a', 's', 's', '='] := rfl
  have k6 : "&domn=".data = ['&', 'd', 'o', 'm', 'n', '='] := rfl
  have k7 : "&reqc=".data = ['&', 'r', 'e', 'q', 'c', '='] := rfl
  have k8 : ("" : String).data = [] := rfl
  rcases hm with hm | hm
  · rw [hm]
    simp only [String.data_append, h1, k1, k2, k3, k4, k5, k6, k7, k8, List.append_assoc,
      List.cons_append, List.nil_append, List.append_nil,
      show ¬((1 : Int) = REGISTER) by decide, if_false]
    simp only [isInfix_append_cons_iff _ _ _ '&' hamp, List.infix_cons_iff,
      List.cons_prefix_cons]
    simp [hH]
  · rw [hm]
    simp only [String.data_append, h2, k1, k2, k3, k4, k5, k6, k7, k8, List.append_assoc,
      List.cons_append, List.nil_append, List.append_nil,
      show ¬((2 : Int) = REGISTER) by decide, if_false]
    simp only [isInfix_append_cons_iff _ _ _ '&' hamp, List.infix_cons_iff,
      List.cons_prefix_cons]
    simp [hH]

end gdip

namespace gdip

theorem occursIn_requestParams_register (c : Client) (salt time sign : String)
    (hm : c.requestCode = REGISTER) : occursIn "addr=" (requestParams c salt time sign) := by
  unfold occursIn
  rw [requestParams_eq, if_pos hm, String.data_append]
  have hk : ("&addr=" ++ c.Address).data = ['&'] ++ ("addr=".data ++ c.Address.data) := by
    rw [String.data_append]
    rfl
  rw [hk]
  exact (List.infix_append' ['&'] "addr=".data c.Address.data).trans
    (List.suffix_append _ _).isInfix

/-- C8, as the code has it: in REGISTER mode the query string contains `addr=`;
in OFFLINE and REGISTER_PASSIVE mode no `addr` key is appended, so the query
string ends with the `reqc` pair and contains `addr=` exactly when one of salt,
time, sign, user or domain name, all inserted verbatim, contains it. -/
theorem requestParams_addr_key (c : Client) (salt time sign : String) :
    (c.requestCode = REGISTER → occursIn "addr=" (requestParams c salt time sign))
      ∧ (c.requestCode = OFFLINE ∨ c.requestCode = REGISTER_PASSIVE →
          requestParams c salt time sign =
              "salt=" ++ salt ++ "&time=" ++ time ++ "&sign=" ++ sign ++ "&user=" ++ c.User
                ++ "&pass=" ++ md5_hex (c.Password ++ "." ++ salt)
                ++ "&domn=" ++ c.DomainName ++ "&reqc=" ++ toString c.requestCode
            ∧ (occursIn "addr=" (requestParams c salt time sign) ↔
              occursIn "addr=" salt ∨ occursIn "addr=" time ∨ occursIn "addr=" sign ∨
                occursIn "addr=" c.User ∨ occursIn "addr=" c.DomainName)) := by
  refine ⟨occursIn_requestParams_register c salt time sign, fun hm => ⟨?_, ?_⟩⟩
  · have hne : ¬ c.requestCode = REGISTER := by
      rcases hm with h | h <;> rw [h] <;> decide
    rw [requestParams_eq, if_neg hne]
    exact String.ext (by simp [String.data_append])
  · exact occursIn_requestParams_iff c salt time sign hm

theorem requestParams_addr_key_witness :
    occursIn "addr="
        (requestParams
          ⟨"http://h/gdip", "u", md5_hex "secret", "d.example", REGISTER, "198.51.100.7"⟩
          "abc" "123" "xyz")
      ∧ ¬ occursIn "addr="
        (requestParams ⟨"http://h/gdip", "u", md5_hex "secret", "d.example", OFFLINE, ""⟩
          "abc" "123" "xyz") :=
  ⟨(requestParams_addr_key
      ⟨"http://h/gdip", "u", md5_hex "secret", "d.example", REGISTER, "198.51.100.7"⟩
      "abc" "123" "xyz").1 rfl,
    fun h =>
      absurd
        (((requestParams_addr_key
          ⟨"http://h/gdip", "u", md5_hex "secret", "d.example", OFFLINE, ""⟩
          "abc" "123" "xyz").2 (Or.inl rfl)).2.1 h)
        (by decide)⟩

/-- C8 as stated fails: in OFFLINE mode, with the sign value `addr=1` received in
the challenge, the query string contains `addr=`. -/
theorem requestParams_offline_contains_addr :
    occursIn "addr="
      (requestParams ⟨"http://h/gdip", "u", md5_hex "secret", "d.example", OFFLINE, ""⟩
        "abc" "123" "addr=1") :=
  (occursIn_requestParams_iff _ "abc" "123" "addr=1" (Or.inl rfl)).2
    (Or.inr (Or.inr (Or.inl (by decide))))

end gdip
